import Mathlib

/-!
Shallow embedding of `src/app.py` (a Streamlit voice-chat client): the
streaming session handler `StreamlitWebSocketHandler`, the pure helpers
`translate_text`, `is_arabic`, `_extract_top_n_emotions`, and the behaviour of
the handler on sequences of inbound events.  Emotion scores (Python floats
delivered by the external API) are modelled as rationals; wall-clock timestamps
(`datetime.datetime.now`) are modelled as natural numbers supplied to each
handler call; the external HTTP translation endpoint is modelled as an oracle
argument.
-/

namespace VoiceBot

/-- Model of Python `str.isalpha` (the Unicode `Alphabetic` property),
restricted to the scripts this application handles: ASCII letters and the
letters of the Arabic blocks (U+0620–U+064A, U+066E–U+066F, U+0671–U+06D3,
U+06D5, U+06E5–U+06E6, U+06EE–U+06EF, U+06FA–U+06FC, U+06FF, U+0750–U+077F,
U+08A0–U+08C9). -/
def pyIsAlpha (c : Char) : Bool :=
  let n := c.toNat
  (0x41 ≤ n && n ≤ 0x5A) || (0x61 ≤ n && n ≤ 0x7A) ||
  (0x620 ≤ n && n ≤ 0x64A) || (0x66E ≤ n && n ≤ 0x66F) ||
  (0x671 ≤ n && n ≤ 0x6D3) || n == 0x6D5 ||
  (0x6E5 ≤ n && n ≤ 0x6E6) || (0x6EE ≤ n && n ≤ 0x6EF) ||
  (0x6FA ≤ n && n ≤ 0x6FC) || n == 0x6FF ||
  (0x750 ≤ n && n ≤ 0x77F) || (0x8A0 ≤ n && n ≤ 0x8C9)

/-- Model of the character set stripped by Python `str.strip()` with no
argument: the Unicode whitespace characters. -/
def pyIsSpace (c : Char) : Bool :=
  let n := c.toNat
  n == 0x20 || (0x9 ≤ n && n ≤ 0xD) || (0x1C ≤ n && n ≤ 0x1F) ||
  n == 0x85 || n == 0xA0 || n == 0x1680 ||
  (0x2000 ≤ n && n ≤ 0x200A) || n == 0x2028 || n == 0x2029 ||
  n == 0x202F || n == 0x205F || n == 0x3000

/-- Model of Python `str.strip()`: drop leading and trailing whitespace. -/
def pyStrip (s : String) : String :=
  String.mk (((s.toList.dropWhile pyIsSpace).reverse.dropWhile pyIsSpace).reverse)

/-- Character class of the regex used by `is_arabic` in src/app.py line 43:
one character in the blocks U+0600–U+06FF, U+0750–U+077F or U+08A0–U+08FF. -/
def inArabicBlock (c : Char) : Bool :=
  let n := c.toNat
  (0x600 ≤ n && n ≤ 0x6FF) || (0x750 ≤ n && n ≤ 0x77F) || (0x8A0 ≤ n && n ≤ 0x8FF)

/-- Embedding of `is_arabic` (src/app.py lines 41–46): count the characters
matched by the Arabic-block regex, count the alphabetic characters, and test
`total_chars > 0 and arabic_chars / total_chars > 0.3`.  The IEEE
double divisions and comparison of the source are modelled by exact rational arithmetic
(`mkRat n d` is the rational `n / d`; the first component of the conjunction guards
the division exactly as the short-circuiting `and` of Python does); for character
counts far below 2^50 the float comparison and the rational one agree. -/
def is_arabic (text : String) : Bool :=
  let arabic_chars : Nat := (text.toList.filter inArabicBlock).length
  let total_chars : Nat := (text.toList.filter pyIsAlpha).length
  decide (0 < total_chars) && decide (mkRat 3 10 < mkRat arabic_chars total_chars)

/-- Outcome of the HTTP GET inside `translate_text`: `failure` models a
timeout, a raised exception, or a non-200 status; `success frags` models a 200
response whose parsed body has `result[0] = frags`, each item being `none` when
the item or its first field is null/empty and `some s` when its first field is
the string `s`. -/
inductive HttpResult where
  | failure : HttpResult
  | success : List (Option String) → HttpResult
deriving DecidableEq

/-- External translation endpoint, modelled as a function of the query text and
the target language code. -/
def TranslateOracle : Type := String → String → HttpResult

/-- Embedding of `translate_text` (src/app.py lines 19–39): on any failure it
returns the sentinel string `"Translation unavailable"`; on a 200 response with
a non-empty `result[0]` it joins the non-empty first fields of the items and
strips the result. -/
def translate_text (oracle : TranslateOracle) (text : String) (target_lang : String) : String :=
  match oracle text target_lang with
  | .failure => "Translation unavailable"
  | .success frags =>
    match frags with
    | [] => "Translation unavailable"
    | _ =>
      pyStrip (String.join (frags.filterMap (fun item =>
        match item with
        | some s => if s.isEmpty then none else some s
        | none => none)))

/-- Ordering used by `_extract_top_n_emotions`: entry `a` precedes entry `b`
when the score of `a` is at least the score of `b` (descending by `item[1]`). -/
def scoreGE (a b : String × ℚ) : Prop := b.2 ≤ a.2

instance : DecidableRel scoreGE := fun a b => inferInstanceAs (Decidable (b.2 ≤ a.2))

instance : IsTotal (String × ℚ) scoreGE := ⟨fun a b => le_total b.2 a.2⟩

instance : IsTrans (String × ℚ) scoreGE := ⟨fun _ _ _ h1 h2 => le_trans h2 h1⟩

/-- Embedding of `StreamlitWebSocketHandler._extract_top_n_emotions`
(src/app.py lines 131–133).  The insertion-ordered Python dict is modelled as an
association list; `sorted(..., key=lambda item: item[1], reverse=True)` is the
stable sort by descending score, modelled by `List.insertionSort scoreGE`
(a stable sort with respect to the same total preorder — and any two stable
sorts of a list under one total preorder produce the same output list). -/
def extract_top_n_emotions (emotion_scores : List (String × ℚ)) (n : Nat) :
    List (String × ℚ) :=
  (emotion_scores.insertionSort scoreGE).take n

/-- One element of `chat_history`: the dict appended by the handler.  Optional
dict keys are modelled as `Option` fields, `none` meaning the key is absent. -/
structure TranscriptEntry where
  timestamp : Nat
  type : String
  message : String
  emotions : Option (List (String × ℚ)) := none
  original_language : Option String := none
  english_translation : Option String := none
  arabic_translation : Option String := none
deriving DecidableEq, Repr

/-- Mutable state of a `StreamlitWebSocketHandler`.  The audio byte stream
`byte_strs` is modelled as the list of (base64) payloads pushed to it; no claim
depends on the decoded bytes. -/
structure HandlerState where
  byte_strs : List String
  chat_history : List TranscriptEntry
  is_connected : Bool
  input_language : String
deriving DecidableEq, Repr

/-- Inbound `SubscribeEvent`s dispatched on by `on_message`: user and assistant
speech carry text content and optional prosody scores
(`message.models.prosody.scores`), audio chunks carry a payload, error events a
code and a message, and `other` stands for any event type the handler does not
recognise. -/
inductive SubscribeEvent where
  | user_message : String → Option (List (String × ℚ)) → SubscribeEvent
  | assistant_message : String → Option (List (String × ℚ)) → SubscribeEvent
  | audio_output : String → SubscribeEvent
  | error : String → String → SubscribeEvent
  | other : String → SubscribeEvent
deriving DecidableEq

namespace StreamlitWebSocketHandler

/-- Embedding of `StreamlitWebSocketHandler.__init__` (src/app.py lines 49–53). -/
def init (input_language : String) : HandlerState :=
  { byte_strs := [], chat_history := [], is_connected := false,
    input_language := input_language }

/-- Embedding of `set_input_language` (src/app.py lines 55–56). -/
def set_input_language (s : HandlerState) (language : String) : HandlerState :=
  { s with input_language := language }

/-- Embedding of `on_open` (src/app.py lines 58–64); `ts` models the value of
`datetime.datetime.now(tz=datetime.timezone.utc)` at the call. -/
def on_open (s : HandlerState) (ts : Nat) : HandlerState :=
  { s with is_connected := true,
           chat_history := s.chat_history ++
             [{ timestamp := ts, type := "system",
                message := "Connection established. You can start speaking now." }] }

/-- The `user` chat entry built by the `user_message` branch of `on_message`
(src/app.py lines 69–94), as a function of the input-language
preference of the handler, the timestamp, the raw content and the optional prosody scores. -/
def userEntry (oracle : TranslateOracle) (lang : String) (ts : Nat)
    (content : String) (prosody : Option (List (String × ℚ))) : TranscriptEntry :=
  let emotions := match prosody with
    | some scores => extract_top_n_emotions scores 3
    | none => []
  let text := pyStrip content
  let detected_is_arabic : Bool := if lang = "auto" then is_arabic text else decide (lang = "ar")
  { timestamp := ts, type := "user", message := text,
    emotions := some emotions,
    original_language := some (if detected_is_arabic then "arabic" else "english"),
    english_translation :=
      if detected_is_arabic then some (translate_text oracle text "en") else none,
    arabic_translation :=
      if detected_is_arabic then none else some (translate_text oracle text "ar") }

/-- The `assistant` chat entry built by the `assistant_message` branch of
`on_message` (src/app.py lines 96–103). -/
def assistantEntry (ts : Nat) (content : String)
    (prosody : Option (List (String × ℚ))) : TranscriptEntry :=
  let emotions := match prosody with
    | some scores => extract_top_n_emotions scores 3
    | none => []
  { timestamp := ts, type := "assistant", message := content, emotions := some emotions }

/-- The `error` chat entry built by the `error` branch of `on_message`
(src/app.py lines 108–113): its message renders the code and message of the event. -/
def errorEntry (ts : Nat) (code : String) (msg : String) : TranscriptEntry :=
  { timestamp := ts, type := "error",
    message := "Error (" ++ code ++ "): " ++ msg }

/-- Embedding of `on_message` (src/app.py lines 66–114).  The second component
models control flow out of the coroutine: `none` is a normal return, and
`some e` models the `RuntimeError e` raised after appending the error entry on
an error event.  Unrecognised event types fall through every branch and leave
the state unchanged. -/
def on_message (oracle : TranslateOracle) (s : HandlerState) (ts : Nat)
    (m : SubscribeEvent) : HandlerState × Option String :=
  match m with
  | .user_message content prosody =>
      ({ s with chat_history := s.chat_history ++ [userEntry oracle s.input_language ts content prosody] },
       none)
  | .assistant_message content prosody =>
      ({ s with chat_history := s.chat_history ++ [assistantEntry ts content prosody] },
       none)
  | .audio_output data =>
      ({ s with byte_strs := s.byte_strs ++ [data] }, none)
  | .error code msg =>
      ({ s with chat_history := s.chat_history ++ [errorEntry ts code msg] },
       some ("Received error message from Hume websocket (" ++ code ++ "): " ++ msg))
  | .other _ => (s, none)

/-- Embedding of `on_close` (src/app.py lines 116–122). -/
def on_close (s : HandlerState) (ts : Nat) : HandlerState :=
  { s with is_connected := false,
           chat_history := s.chat_history ++
             [{ timestamp := ts, type := "system", message := "Connection closed." }] }

/-- Embedding of `on_error` (src/app.py lines 124–129); `err` models the
stringified error. -/
def on_error (s : HandlerState) (ts : Nat) (err : String) : HandlerState :=
  { s with chat_history := s.chat_history ++
      [{ timestamp := ts, type := "error", message := "Error: " ++ err }] }

end StreamlitWebSocketHandler

/-- One inbound message event together with the wall-clock timestamp the
handler reads when processing it. -/
structure InEvent where
  ts : Nat
  msg : SubscribeEvent
deriving DecidableEq

/-- Feeding a finite sequence of inbound events to the handler, one at a time
in order, as the sequential delivery of the external channel does. -/
def processEvents (oracle : TranslateOracle) (s : HandlerState)
    (evs : List InEvent) : HandlerState :=
  evs.foldl (fun st e => (StreamlitWebSocketHandler.on_message oracle st e.ts e.msg).1) s

/-- Whether an event kind causes `on_message` to append a transcript entry:
user speech, assistant speech and error events do; audio chunks and
unrecognised kinds do not. -/
def producesEntry : SubscribeEvent → Bool
  | .user_message _ _ => true
  | .assistant_message _ _ => true
  | .audio_output _ => false
  | .error _ _ => true
  | .other _ => false

/-- The transcript entry an event contributes, given the input-language preference of the
handler (which no message event changes). -/
def entryOf (oracle : TranslateOracle) (lang : String) (e : InEvent) :
    Option TranscriptEntry :=
  match e.msg with
  | .user_message c p => some (StreamlitWebSocketHandler.userEntry oracle lang e.ts c p)
  | .assistant_message c p => some (StreamlitWebSocketHandler.assistantEntry e.ts c p)
  | .audio_output _ => none
  | .error code msg => some (StreamlitWebSocketHandler.errorEntry e.ts code msg)
  | .other _ => none

/-- The four-step scenario of §8 of the spec: open, user speech "Hello" under
the `auto` preference, assistant speech "Hi there!", close (no prosody data on
either message). -/
def scenarioRun (oracle : TranslateOracle) (t1 t2 t3 t4 : Nat) : HandlerState :=
  let s0 := StreamlitWebSocketHandler.init "auto"
  let s1 := StreamlitWebSocketHandler.on_open s0 t1
  let s2 := (StreamlitWebSocketHandler.on_message oracle s1 t2
    (.user_message "Hello" none)).1
  let s3 := (StreamlitWebSocketHandler.on_message oracle s2 t3
    (.assistant_message "Hi there!" none)).1
  StreamlitWebSocketHandler.on_close s3 t4

/-- Count of characters of `text` inside the three Arabic Unicode blocks, as
named by the classification rule of the specification. -/
def arabicCount (text : String) : Nat :=
  (text.toList.filter inArabicBlock).length

/-- Count of alphabetic characters of `text`, as named by the classification rule of
the specification. -/
def alphaCount (text : String) : Nat :=
  (text.toList.filter pyIsAlpha).length

open StreamlitWebSocketHandler

theorem on_message_input_language (oracle : TranslateOracle) (s : HandlerState)
    (ts : Nat) (m : SubscribeEvent) :
    (on_message oracle s ts m).1.input_language = s.input_language := by
  cases m <;> rfl

theorem on_message_chat_history (oracle : TranslateOracle) (s : HandlerState)
    (ts : Nat) (m : SubscribeEvent) :
    (on_message oracle s ts m).1.chat_history
      = s.chat_history ++ (entryOf oracle s.input_language ⟨ts, m⟩).toList := by
  cases m <;> simp [on_message, entryOf]

theorem entryOf_isSome (oracle : TranslateOracle) (lang : String) (e : InEvent) :
    (entryOf oracle lang e).isSome = producesEntry e.msg := by
  obtain ⟨ts, m⟩ := e
  cases m <;> rfl

theorem entryOf_timestamp (oracle : TranslateOracle) (lang : String) (e : InEvent)
    (t : TranscriptEntry) (h : entryOf oracle lang e = some t) :
    t.timestamp = e.ts := by
  obtain ⟨ts, m⟩ := e
  cases m <;> (simp only [entryOf] at h) <;> (cases h) <;> rfl

theorem processEvents_chat_history (oracle : TranslateOracle) :
    ∀ (evs : List InEvent) (s : HandlerState),
      (processEvents oracle s evs).chat_history
        = s.chat_history ++ evs.filterMap (entryOf oracle s.input_language)
  | [], _ => by simp [processEvents]
  | e :: evs, s => by
    have hstep := on_message_chat_history oracle s e.ts e.msg
    have hlang := on_message_input_language oracle s e.ts e.msg
    have ih := processEvents_chat_history oracle evs (on_message oracle s e.ts e.msg).1
    simp only [processEvents, List.foldl_cons] at ih ⊢
    rw [ih, hlang, hstep, List.filterMap_cons]
    cases h : entryOf oracle s.input_language ⟨e.ts, e.msg⟩ <;>
      simp [Option.toList, h, List.append_assoc]

theorem length_filterMap_eq_countP (f : InEvent → Option TranscriptEntry) :
    ∀ evs : List InEvent,
      (evs.filterMap f).length = evs.countP (fun e => (f e).isSome)
  | [] => rfl
  | e :: evs => by
    rw [List.filterMap_cons, List.countP_cons]
    cases h : f e <;>
      simp [length_filterMap_eq_countP f evs, h]

theorem timestamps_filterMap_sublist (oracle : TranslateOracle) (lang : String) :
    ∀ evs : List InEvent,
      List.Sublist
        ((evs.filterMap (entryOf oracle lang)).map TranscriptEntry.timestamp)
        (evs.map InEvent.ts)
  | [] => List.Sublist.refl _
  | e :: evs => by
    rw [List.filterMap_cons, List.map_cons]
    cases h : entryOf oracle lang e with
    | none => exact (timestamps_filterMap_sublist oracle lang evs).cons _
    | some t =>
      rw [List.map_cons, entryOf_timestamp oracle lang e t h]
      exact (timestamps_filterMap_sublist oracle lang evs).cons₂ _

/-- Claim C2: feeding any finite sequence of inbound message events, in order,
to a fresh Session Handler yields a transcript with exactly one entry per
entry-producing event (audio chunks and unrecognised kinds add none), in
arrival order (the transcript is exactly the arrival-ordered list of the
per-event entries), and with non-decreasing timestamps whenever the wall-clock
readings taken at the successive calls are non-decreasing. -/
theorem transcript_of_event_sequence (oracle : TranslateOracle) (lang : String)
    (evs : List InEvent) (hts : (evs.map InEvent.ts).Pairwise (· ≤ ·)) :
    (processEvents oracle (init lang) evs).chat_history
        = evs.filterMap (entryOf oracle lang) ∧
    (processEvents oracle (init lang) evs).chat_history.length
        = evs.countP (fun e => producesEntry e.msg) ∧
    ((processEvents oracle (init lang) evs).chat_history.map
        TranscriptEntry.timestamp).Pairwise (· ≤ ·) := by
  have h1 : (processEvents oracle (init lang) evs).chat_history
      = evs.filterMap (entryOf oracle lang) := by
    simpa [init] using processEvents_chat_history oracle evs (init lang)
  refine ⟨h1, ?_, ?_⟩
  · rw [h1, length_filterMap_eq_countP]
    exact List.countP_congr (fun e _ => by
      rw [entryOf_isSome])
  · rw [h1]
    exact hts.sublist (timestamps_filterMap_sublist oracle lang evs)

/-- Witness for C2: a concrete five-event run (user speech, audio chunk,
assistant speech, unknown kind, error event) with non-decreasing clock
readings; the transcript has the four produced entries in arrival order with
non-decreasing timestamps. -/
theorem transcript_of_event_sequence_witness :
    (([⟨1, .user_message "Hello" none⟩, ⟨2, .audio_output "QUJD"⟩,
       ⟨3, .assistant_message "Hi there!" none⟩, ⟨3, .other "chat_metadata"⟩,
       ⟨4, .error "400" "bad request"⟩] : List InEvent).map InEvent.ts).Pairwise (· ≤ ·) ∧
    ((processEvents (fun _ _ => HttpResult.failure) (init "auto")
        [⟨1, .user_message "Hello" none⟩, ⟨2, .audio_output "QUJD"⟩,
         ⟨3, .assistant_message "Hi there!" none⟩, ⟨3, .other "chat_metadata"⟩,
         ⟨4, .error "400" "bad request"⟩]).chat_history.length
      = ([⟨1, .user_message "Hello" none⟩, ⟨2, .audio_output "QUJD"⟩,
          ⟨3, .assistant_message "Hi there!" none⟩, ⟨3, .other "chat_metadata"⟩,
          ⟨4, .error "400" "bad request"⟩] : List InEvent).countP
            (fun e => producesEntry e.msg)) ∧
    ((processEvents (fun _ _ => HttpResult.failure) (init "auto")
        [⟨1, .user_message "Hello" none⟩, ⟨2, .audio_output "QUJD"⟩,
         ⟨3, .assistant_message "Hi there!" none⟩, ⟨3, .other "chat_metadata"⟩,
         ⟨4, .error "400" "bad request"⟩]).chat_history.map
        TranscriptEntry.timestamp).Pairwise (· ≤ ·) := by
  refine ⟨by decide, ?_, ?_⟩
  · exact (transcript_of_event_sequence (fun _ _ => HttpResult.failure) "auto" _
      (by decide)).2.1
  · exact (transcript_of_event_sequence (fun _ _ => HttpResult.failure) "auto" _
      (by decide)).2.2

/-- Claim C3: the Language Classifier is the pure function `is_arabic`; it
classifies a text as Arabic exactly when at least one alphabetic character
exists and the count of characters in the three Arabic Unicode blocks strictly
exceeds 30% of the count of alphabetic characters (`10 * arabic > 3 * alpha`);
otherwise — including for any text with no alphabetic character, such as the
empty string — it classifies as English.  The three examples of the spec are
checked concretely. -/
theorem is_arabic_classification :
    (∀ text : String, is_arabic text = true ↔
        0 < alphaCount text ∧ 3 * alphaCount text < 10 * arabicCount text) ∧
    is_arabic "مرحبا كيف حالك" = true ∧
    is_arabic "Hello how are you" = false ∧
    is_arabic "" = false := by
  refine ⟨fun text => ?_, by decide, by decide, by decide⟩
  simp only [is_arabic, arabicCount, alphaCount, Bool.and_eq_true, decide_eq_true_eq]
  refine and_congr_right fun ht => ?_
  rw [Rat.mkRat_eq_div, Rat.mkRat_eq_div]
  rw [div_lt_div_iff₀ (by norm_num) (by exact_mod_cast ht)]
  norm_cast
  omega

/-- Claim C4: for every emotion-score association list, `_extract_top_n_emotions`
with N = 3 returns at most 3 entries, pairwise sorted by non-increasing score,
consisting of highest-scoring entries of the input (the input is a permutation
of the output followed by a remainder every element of which scores no more
than any output element), with tied scores kept in the relative order of the input
(for each score value, the output entries with that score are a prefix of
the input entries with that score, in input order); the empty input yields
the empty output. -/
theorem extract_top_n_emotions_spec (l : List (String × ℚ)) :
    (extract_top_n_emotions l 3).length ≤ 3 ∧
    (extract_top_n_emotions l 3).Pairwise scoreGE ∧
    (∃ rest, l.Perm (extract_top_n_emotions l 3 ++ rest) ∧
      ∀ o ∈ extract_top_n_emotions l 3, ∀ r ∈ rest, r.2 ≤ o.2) ∧
    (∀ q : ℚ, (extract_top_n_emotions l 3).filter (fun p => decide (p.2 = q)) <+:
      l.filter (fun p => decide (p.2 = q))) ∧
    extract_top_n_emotions ([] : List (String × ℚ)) 3 = [] := by
  have hsorted : (l.insertionSort scoreGE).Pairwise scoreGE :=
    List.sorted_insertionSort scoreGE l
  have hperm : (l.insertionSort scoreGE).Perm l := List.perm_insertionSort scoreGE l
  refine ⟨?_, ?_, ?_, ?_, rfl⟩
  · simp only [extract_top_n_emotions, List.length_take]
    omega
  · exact List.Pairwise.sublist (List.take_sublist 3 _) hsorted
  · refine ⟨(l.insertionSort scoreGE).drop 3, ?_, ?_⟩
    · have hsplit : extract_top_n_emotions l 3 ++ (l.insertionSort scoreGE).drop 3
          = l.insertionSort scoreGE := List.take_append_drop 3 _
      rw [hsplit]
      exact hperm.symm
    · intro o ho r hr
      have hsplit : extract_top_n_emotions l 3 ++ (l.insertionSort scoreGE).drop 3
          = l.insertionSort scoreGE := List.take_append_drop 3 _
      rw [← hsplit] at hsorted
      exact (List.pairwise_append.mp hsorted).2.2 o ho r hr
  · intro q
    have hmem : ∀ x ∈ l.filter (fun p => decide (p.2 = q)), x.2 = q := by
      intro x hx
      simpa using (List.mem_filter.mp hx).2
    have hpw : (l.filter (fun p => decide (p.2 = q))).Pairwise scoreGE :=
      List.pairwise_of_forall_mem_list (fun a ha b hb => by
        show b.2 ≤ a.2
        rw [hmem a ha, hmem b hb])
    have hsub : List.Sublist (l.filter (fun p => decide (p.2 = q)))
        (l.insertionSort scoreGE) :=
      List.sublist_insertionSort hpw (List.filter_sublist l)
    have hsub2 : List.Sublist (l.filter (fun p => decide (p.2 = q)))
        ((l.insertionSort scoreGE).filter (fun p => decide (p.2 = q))) := by
      have := hsub.filter (fun p => decide (p.2 = q))
      rwa [List.filter_eq_self.mpr (fun a ha => (List.mem_filter.mp ha).2)] at this
    have hlen : ((l.insertionSort scoreGE).filter (fun p => decide (p.2 = q))).length
        = (l.filter (fun p => decide (p.2 = q))).length :=
      (hperm.filter (fun p => decide (p.2 = q))).length_eq
    have heq : (l.insertionSort scoreGE).filter (fun p => decide (p.2 = q))
        = l.filter (fun p => decide (p.2 = q)) :=
      (hsub2.eq_of_length hlen.symm).symm
    have htake : (l.insertionSort scoreGE).take 3 <+: l.insertionSort scoreGE :=
      ⟨(l.insertionSort scoreGE).drop 3, List.take_append_drop 3 _⟩
    have hpre := htake.filter (fun p => decide (p.2 = q))
    rw [heq] at hpre
    exact hpre

/-- Counterexample to claim C1 as stated: when the translation call fails, the
appended user entry DOES contain a translation field — it holds the sentinel
string "Translation unavailable" (src/app.py line 39 returns the sentinel and
lines 89–92 store it unconditionally), rather than the field being absent. -/
theorem user_translation_field_present_cex :
    ((on_message (fun _ _ => HttpResult.failure) (init "auto") 5
        (.user_message "Hello" none)).1.chat_history.map
      TranscriptEntry.arabic_translation) = [some "Translation unavailable"] := by
  decide

/-- Claim C1 (amended): for every user-speech event whose translation call
fails, the handler still appends the user TranscriptEntry, and the
translation field of that entry holds the sentinel string "Translation unavailable" (the
opposite-direction field being absent). -/
theorem user_entry_appended_on_translation_failure (oracle : TranslateOracle)
    (s : HandlerState) (ts : Nat) (content : String)
    (prosody : Option (List (String × ℚ)))
    (hfail : ∀ lang, oracle (pyStrip content) lang = HttpResult.failure) :
    ∃ e, (on_message oracle s ts (.user_message content prosody)).1.chat_history
        = s.chat_history ++ [e] ∧
      e.type = "user" ∧ e.message = pyStrip content ∧
      ((e.english_translation = some "Translation unavailable" ∧
          e.arabic_translation = none) ∨
       (e.english_translation = none ∧
          e.arabic_translation = some "Translation unavailable")) := by
  refine ⟨userEntry oracle s.input_language ts content prosody, rfl, rfl, rfl, ?_⟩
  by_cases hd : (if s.input_language = "auto" then is_arabic (pyStrip content)
      else decide (s.input_language = "ar")) = true
  · left
    constructor <;> simp [userEntry, hd, translate_text, hfail]
  · right
    rw [Bool.not_eq_true] at hd
    constructor <;> simp [userEntry, hd, translate_text, hfail]

/-- Witness for the amended C1 at a concrete failing endpoint and input. -/
theorem user_entry_appended_on_translation_failure_witness :
    (∀ lang, (fun _ _ => HttpResult.failure : TranslateOracle)
        (pyStrip " Hello ") lang = HttpResult.failure) ∧
    (∃ e, (on_message (fun _ _ => HttpResult.failure) (init "auto") 7
          (.user_message " Hello " none)).1.chat_history
        = (init "auto").chat_history ++ [e] ∧
      e.type = "user" ∧ e.message = pyStrip " Hello " ∧
      ((e.english_translation = some "Translation unavailable" ∧
          e.arabic_translation = none) ∨
       (e.english_translation = none ∧
          e.arabic_translation = some "Translation unavailable"))) :=
  ⟨fun _ => rfl,
   user_entry_appended_on_translation_failure _ _ 7 " Hello " none (fun _ => rfl)⟩

/-- Counterexample to claim C5 as stated: in the four-event scenario with a
failing translation endpoint, the user entry still carries the
`arabic_translation` field, holding the sentinel, contradicting "no
translation field if translation failed". -/
theorem scenario_translation_field_cex :
    ((scenarioRun (fun _ _ => HttpResult.failure) 0 1 2 3).chat_history.get? 1).map
        TranscriptEntry.arabic_translation = some (some "Translation unavailable") := by
  decide

/-- Claim C5 (amended): the event sequence onOpen, onMessage(user-speech
"Hello") under preference auto, onMessage(assistant-speech "Hi there!"),
onClose on a fresh handler yields exactly four entries, in order: the system
connection-established entry, the user entry with message "Hello", detected
language english and an `arabic_translation` field holding the Translation
Client result (the translated text, or the sentinel "Translation
unavailable" on failure), the assistant entry with message "Hi there!", and
the system closure entry — and the connected flag ends false. -/
theorem scenario_transcript (oracle : TranslateOracle) (t1 t2 t3 t4 : Nat) :
    (scenarioRun oracle t1 t2 t3 t4).chat_history
      = [{ timestamp := t1, type := "system",
           message := "Connection established. You can start speaking now." },
         { timestamp := t2, type := "user", message := "Hello",
           emotions := some [], original_language := some "english",
           english_translation := none,
           arabic_translation := some (translate_text oracle "Hello" "ar") },
         { timestamp := t3, type := "assistant", message := "Hi there!",
           emotions := some [] },
         { timestamp := t4, type := "system", message := "Connection closed." }] ∧
    (scenarioRun oracle t1 t2 t3 t4).is_connected = false :=
  ⟨rfl, rfl⟩

/-- Claim C6: for every error-kind message event, the handler appends exactly
one error TranscriptEntry whose message renders the code and message of the event,
and the call escalates (models the raised RuntimeError, which terminates the
session); the appended entry is in the returned state, i.e. it remains in the
transcript despite the escalation. -/
theorem error_event_appends_and_escalates (oracle : TranslateOracle)
    (s : HandlerState) (ts : Nat) (code msg : String) :
    (on_message oracle s ts (.error code msg)).1.chat_history
      = s.chat_history ++
        [{ timestamp := ts, type := "error",
           message := "Error (" ++ code ++ "): " ++ msg }] ∧
    (on_message oracle s ts (.error code msg)).2
      = some ("Received error message from Hume websocket (" ++ code ++ "): " ++ msg) :=
  ⟨rfl, rfl⟩

/-- Claim C7: no inbound event other than an error-kind event makes
`on_message` escalate an exception: the second component (the modelled raised
error) is `none` on every non-error event, for every handler state, timestamp
and translation-endpoint behaviour (including failing ones) — derived
computations degrade instead of aborting.  (`on_open`, `on_close` and
`on_error` are total state functions in this embedding with no escalation
channel at all.) -/
theorem non_error_event_never_escalates (oracle : TranslateOracle)
    (s : HandlerState) (ts : Nat) (m : SubscribeEvent)
    (h : ∀ code msg, m ≠ SubscribeEvent.error code msg) :
    (on_message oracle s ts m).2 = none := by
  cases m <;> try rfl
  exact absurd rfl (h _ _)

/-- Witness for C7: a user-speech event under an always-failing translation
endpoint does not escalate. -/
theorem non_error_event_never_escalates_witness :
    (∀ code msg, SubscribeEvent.user_message "Hello" none
        ≠ SubscribeEvent.error code msg) ∧
    (on_message (fun _ _ => HttpResult.failure) (init "auto") 0
        (SubscribeEvent.user_message "Hello" none)).2 = none :=
  ⟨fun _ _ hc => SubscribeEvent.noConfusion hc,
   non_error_event_never_escalates _ _ 0 _ (fun _ _ hc => SubscribeEvent.noConfusion hc)⟩

/-- Claim C8: `set_input_language` changes only the input-language preference:
the transcript (hence the language classification recorded on every
already-appended entry), the connected flag and the audio stream are left
unchanged, and a subsequent user-speech event is classified under the new
preference (its entry is built from the new preference). -/
theorem set_input_language_frame (s : HandlerState) (pref : String) :
    (set_input_language s pref).input_language = pref ∧
    (set_input_language s pref).chat_history = s.chat_history ∧
    (set_input_language s pref).is_connected = s.is_connected ∧
    (set_input_language s pref).byte_strs = s.byte_strs ∧
    ∀ (oracle : TranslateOracle) (ts : Nat) (content : String)
      (prosody : Option (List (String × ℚ))),
      (on_message oracle (set_input_language s pref) ts
          (.user_message content prosody)).1.chat_history
        = s.chat_history ++ [userEntry oracle pref ts content prosody] :=
  ⟨rfl, rfl, rfl, rfl, fun _ _ _ _ => rfl⟩

/-- Claim C9: under a non-auto preference the detected language recorded on a
user-speech entry is a function of the preference alone — "arabic" exactly
when the preference is "ar", otherwise "english" — so any two user-speech
events with arbitrary texts processed under the same non-auto preference carry
the same detected language, and `is_arabic` (the Language Classifier) does not
occur in the value at all. -/
theorem non_auto_preference_determines_language (oracle : TranslateOracle)
    (s : HandlerState) (ts₁ ts₂ : Nat) (c₁ c₂ : String)
    (p₁ p₂ : Option (List (String × ℚ))) (h : s.input_language ≠ "auto") :
    ((on_message oracle s ts₁ (.user_message c₁ p₁)).1.chat_history.getLast?).map
        TranscriptEntry.original_language
      = some (some (if s.input_language = "ar" then "arabic" else "english")) ∧
    ((on_message oracle s ts₁ (.user_message c₁ p₁)).1.chat_history.getLast?).map
        TranscriptEntry.original_language
      = ((on_message oracle s ts₂ (.user_message c₂ p₂)).1.chat_history.getLast?).map
        TranscriptEntry.original_language := by
  have hmain : ∀ (ts : Nat) (c : String) (p : Option (List (String × ℚ))),
      ((on_message oracle s ts (.user_message c p)).1.chat_history.getLast?).map
          TranscriptEntry.original_language
        = some (some (if s.input_language = "ar" then "arabic" else "english")) := by
    intro ts c p
    simp [on_message, userEntry, h]
  exact ⟨hmain ts₁ c₁ p₁, (hmain ts₁ c₁ p₁).trans (hmain ts₂ c₂ p₂).symm⟩

/-- Witness for C9: under preference "en", the texts "Hello" and "مرحبا" both
record detected language english. -/
theorem non_auto_preference_determines_language_witness :
    ((init "en").input_language ≠ "auto") ∧
    (((on_message (fun _ _ => HttpResult.failure) (init "en") 1
          (.user_message "Hello" none)).1.chat_history.getLast?).map
        TranscriptEntry.original_language
      = some (some (if (init "en").input_language = "ar" then "arabic" else "english")) ∧
     ((on_message (fun _ _ => HttpResult.failure) (init "en") 1
          (.user_message "Hello" none)).1.chat_history.getLast?).map
        TranscriptEntry.original_language
      = ((on_message (fun _ _ => HttpResult.failure) (init "en") 2
          (.user_message "مرحبا" none)).1.chat_history.getLast?).map
        TranscriptEntry.original_language) :=
  ⟨by decide,
   non_auto_preference_determines_language (fun _ _ => HttpResult.failure)
     (init "en") 1 2 "Hello" "مرحبا" none none (by decide)⟩

/-- Claim C10: the text of a user-speech event is stripped of leading and trailing
whitespace before classification, translation and recording (the recorded
message, the classified text and the text sent for translation are all the
stripped input), whereas the text of an assistant-speech event is recorded
verbatim. -/
theorem user_stripped_assistant_verbatim (oracle : TranslateOracle)
    (s : HandlerState) (ts : Nat) (content : String)
    (prosody : Option (List (String × ℚ))) :
    (on_message oracle s ts (.user_message content prosody)).1.chat_history
      = s.chat_history ++
        [{ timestamp := ts, type := "user", message := pyStrip content,
           emotions := some (match prosody with
             | some scores => extract_top_n_emotions scores 3
             | none => []),
           original_language := some (if (if s.input_language = "auto"
               then is_arabic (pyStrip content)
               else decide (s.input_language = "ar")) then "arabic" else "english"),
           english_translation := if (if s.input_language = "auto"
               then is_arabic (pyStrip content)
               else decide (s.input_language = "ar"))
             then some (translate_text oracle (pyStrip content) "en") else none,
           arabic_translation := if (if s.input_language = "auto"
               then is_arabic (pyStrip content)
               else decide (s.input_language = "ar"))
             then none else some (translate_text oracle (pyStrip content) "ar") }] ∧
    (on_message oracle s ts (.assistant_message content prosody)).1.chat_history
      = s.chat_history ++
        [{ timestamp := ts, type := "assistant", message := content,
           emotions := some (match prosody with
             | some scores => extract_top_n_emotions scores 3
             | none => []) }] :=
  ⟨rfl, rfl⟩

end VoiceBot
